import Mathlib

/-!
# Verification of the pygeotogether client core

A shallow embedding of `pygeotogether/geocommon.py` and
`pygeotogether/geotogether.py` together with proofs about the period
resolution algorithm, the usage aggregation code and the session / query
state machine.

Conventions of the embedding:
* Python `datetime.date` values are `PyDate` records (proleptic Gregorian
  calendar; the model leaves the year unbounded where Python restricts it
  to 1..9999).
* `date + timedelta(days=n)` is `addDays`, defined by iterating the
  calendar successor / predecessor; `date.weekday()` is `pyWeekday`,
  computed from the proleptic-Gregorian ordinal exactly as CPython does
  (ordinal 1 = January 1 of year 1, a Monday, `weekday = (ordinal+6) % 7`).
* `dateutil.relativedelta(day=1, months=o)` and
  `relativedelta(days=-1, months=1)` are `relAddMonths` (absolute `day`
  replacement clamped to the month length, relative month shift applied to
  the month index) followed, for the `days` part, by `addDays`.
* Python floats carried by API payloads are modelled as rationals (`ℚ`);
  the claims under study only concern exact sums, never rounding.
* A JSON object from the API is modelled as a record whose optional keys
  are `Option` fields; a Python `dict` accumulator is an insertion-ordered
  association list (`List (key × value)`), matching `dict` iteration order.
* An `aiohttp` call is a value of `HttpOutcome`: either `clientError`
  (an `aiohttp.ClientError` was raised) or `response status body`.
* Each client coroutine becomes a pure function from the client state and
  the HTTP outcome to the new state, an `Option` holding the request it
  issued (`none` when it failed before issuing one) and an
  `Except GeoErr result` for the returned value / raised exception.
-/

/-- Proleptic Gregorian calendar date, modelling Python `datetime.date`. -/
structure PyDate where
  year : Int
  month : Nat
  day : Nat
deriving DecidableEq

/-- Gregorian leap-year rule, as in Python's `calendar.isleap`. -/
def isLeap (y : Int) : Prop :=
  y % 4 = 0 ∧ (¬ y % 100 = 0 ∨ y % 400 = 0)

instance (y : Int) : Decidable (isLeap y) := by
  unfold isLeap; infer_instance

/-- Length of a month, as in Python's `calendar.monthrange`. -/
def daysInMonth (y : Int) (m : Nat) : Nat :=
  if m = 2 then (if isLeap y then 29 else 28)
  else if m = 4 ∨ m = 6 ∨ m = 9 ∨ m = 11 then 30
  else 31

/-- Days strictly before month `m` within year `y` (for `1 ≤ m ≤ 12`). -/
def daysBeforeMonth (y : Int) (m : Nat) : Nat :=
  (match m with
   | 1 => 0 | 2 => 31 | 3 => 59 | 4 => 90 | 5 => 120 | 6 => 151
   | 7 => 181 | 8 => 212 | 9 => 243 | 10 => 273 | 11 => 304 | _ => 334)
  + (if 2 < m ∧ isLeap y then 1 else 0)

/-- CPython's `date.toordinal`: day number with ordinal 1 = 0001-01-01,
extended to year ≤ 0 by floor division (`/` on `Int` is Euclidean division,
which agrees with Python `//` for these positive divisors). -/
def toOrdinal (d : PyDate) : Int :=
  365 * (d.year - 1) + (d.year - 1) / 4 - (d.year - 1) / 100 + (d.year - 1) / 400
    + daysBeforeMonth d.year d.month + d.day

/-- CPython's `date.weekday()`: 0 = Monday .. 6 = Sunday. -/
def pyWeekday (d : PyDate) : Int := (toOrdinal d + 6) % 7

/-- The date is a well-formed calendar date. -/
def ValidDate (d : PyDate) : Prop :=
  1 ≤ d.month ∧ d.month ≤ 12 ∧ 1 ≤ d.day ∧ d.day ≤ daysInMonth d.year d.month

instance (d : PyDate) : Decidable (ValidDate d) := by
  unfold ValidDate; infer_instance

/-- Calendar successor (next day). -/
def succDate (d : PyDate) : PyDate :=
  if d.day < daysInMonth d.year d.month then ⟨d.year, d.month, d.day + 1⟩
  else if d.month < 12 then ⟨d.year, d.month + 1, 1⟩
  else ⟨d.year + 1, 1, 1⟩

/-- Calendar predecessor (previous day). -/
def predDate (d : PyDate) : PyDate :=
  if 1 < d.day then ⟨d.year, d.month, d.day - 1⟩
  else if 1 < d.month then ⟨d.year, d.month - 1, daysInMonth d.year (d.month - 1)⟩
  else ⟨d.year - 1, 12, 31⟩

/-- Python `date + timedelta(days=n)`. -/
def addDays (d : PyDate) (n : Int) : PyDate :=
  if 0 ≤ n then succDate^[n.toNat] d else predDate^[(-n).toNat] d

/-- `dateutil.relativedelta` applied to a date, restricted to the shapes the
source uses: an optional absolute `day` replacement plus a relative `months`
shift.  Following dateutil, the month shift is applied to the year/month
pair first and the day is then clamped to the length of the target month
(`day = min(monthrange(y, m)[1], day-or-original-day)`). -/
def relAddMonths (d : PyDate) (dayRepl : Option Nat) (months : Int) : PyDate :=
  let t : Int := 12 * d.year + ((d.month : Int) - 1) + months
  let y : Int := t / 12
  let m : Nat := (t % 12).toNat + 1
  ⟨y, m, min (daysInMonth y m) (dayRepl.getD d.day)⟩

/-- `GeoTimePeriod` from `geocommon.py`. -/
inductive GeoTimePeriod where
  | DAY
  | WEEK
  | MONTH
  | UNBILLED
  | FOREVER
deriving DecidableEq

/-- The `value` of each `GeoTimePeriod` member. -/
def GeoTimePeriod.value : GeoTimePeriod → String
  | .DAY => "Day"
  | .WEEK => "Week"
  | .MONTH => "Month"
  | .UNBILLED => "Since Last Bill"
  | .FOREVER => "All Time"

/-- Python `time_period.name.lower()`. -/
def GeoTimePeriod.lowerName : GeoTimePeriod → String
  | .DAY => "day"
  | .WEEK => "week"
  | .MONTH => "month"
  | .UNBILLED => "unbilled"
  | .FOREVER => "forever"

/-- `GeoTimePeriod.resolve` from `geocommon.py`:
* `DAY`: `from = start_date + relativedelta(days=offset)`, `to = from`;
* `WEEK`: `from = start_date + relativedelta(days=-start_date.weekday(), weeks=offset)`
  (a pure day shift of `-weekday + 7*offset`), `to = from + relativedelta(days=6)`;
* `MONTH`: `from = start_date + relativedelta(day=1, months=offset)`,
  `to = from + relativedelta(days=-1, months=1)` (month shift first, then
  the `-1` day step);
* otherwise the Python code returns `(None, None)`, modelled as `none`. -/
def GeoTimePeriod.resolve (p : GeoTimePeriod) (offset : Int) (start_date : PyDate) :
    Option (PyDate × PyDate) :=
  match p with
  | .DAY =>
      let from_date := addDays start_date offset
      some (from_date, from_date)
  | .WEEK =>
      let from_date := addDays start_date (-(pyWeekday start_date) + 7 * offset)
      some (from_date, addDays from_date 6)
  | .MONTH =>
      let from_date := relAddMonths start_date (some 1) offset
      some (from_date, addDays (relAddMonths from_date none 1) (-1))
  | _ => none

example : GeoTimePeriod.resolve .DAY 0 ⟨2024, 3, 14⟩ = some (⟨2024, 3, 14⟩, ⟨2024, 3, 14⟩) := by
  decide

example : GeoTimePeriod.resolve .WEEK 0 ⟨2024, 1, 3⟩ = some (⟨2024, 1, 1⟩, ⟨2024, 1, 7⟩) := by
  decide

example : GeoTimePeriod.resolve .MONTH (-1) ⟨2024, 4, 15⟩ = some (⟨2024, 3, 1⟩, ⟨2024, 3, 31⟩) := by
  decide

example : GeoTimePeriod.resolve .MONTH 0 ⟨2024, 1, 31⟩ = some (⟨2024, 1, 1⟩, ⟨2024, 1, 31⟩) := by
  decide

example : pyWeekday ⟨2024, 1, 3⟩ = 2 := by decide

/-! ## Calendar arithmetic lemmas -/

lemma one_le_daysInMonth (y : Int) (m : Nat) : 1 ≤ daysInMonth y m := by
  unfold daysInMonth
  split
  · split <;> omega
  · split <;> omega

lemma daysBeforeMonth_succ (y : Int) (m : Nat) (h1 : 1 ≤ m) (h2 : m ≤ 11) :
    daysBeforeMonth y (m + 1) = daysBeforeMonth y m + daysInMonth y m := by
  interval_cases m <;>
    by_cases hL : isLeap y <;>
      simp [daysBeforeMonth, daysInMonth, hL]

lemma leap_div_adjust (y : Int) :
    y / 4 - y / 100 + y / 400 =
      ((y - 1) / 4 - (y - 1) / 100 + (y - 1) / 400) + (if isLeap y then 1 else 0) := by
  by_cases hL : isLeap y
  · rw [if_pos hL]
    unfold isLeap at hL
    omega
  · rw [if_neg hL]
    unfold isLeap at hL
    omega

lemma toOrdinal_succDate (d : PyDate) (h : ValidDate d) :
    toOrdinal (succDate d) = toOrdinal d + 1 := by
  obtain ⟨h1, h2, h3, h4⟩ := h
  unfold succDate
  split
  · unfold toOrdinal
    dsimp only
    omega
  · split
    · unfold toOrdinal
      dsimp only
      have := daysBeforeMonth_succ d.year d.month h1 (by omega)
      omega
    · have hm12 : d.month = 12 := by omega
      have hdim : daysInMonth d.year d.month = 31 := by
        rw [hm12]; simp [daysInMonth]
      have hadj := leap_div_adjust d.year
      unfold toOrdinal
      dsimp only
      have hb1 : daysBeforeMonth (d.year + 1) 1 = 0 := by simp [daysBeforeMonth]
      have hb12 : daysBeforeMonth d.year d.month = 334 + (if isLeap d.year then 1 else 0) := by
        rw [hm12]; simp [daysBeforeMonth]
      by_cases hL : isLeap d.year
      · rw [if_pos hL] at hadj hb12; omega
      · rw [if_neg hL] at hadj hb12; omega

lemma validDate_succDate (d : PyDate) (h : ValidDate d) : ValidDate (succDate d) := by
  obtain ⟨h1, h2, h3, h4⟩ := h
  unfold succDate
  split
  · refine ⟨?_, ?_, ?_, ?_⟩ <;> dsimp only <;> omega
  · split
    · have := one_le_daysInMonth d.year (d.month + 1)
      refine ⟨?_, ?_, ?_, ?_⟩ <;> dsimp only <;> omega
    · have : daysInMonth (d.year + 1) 1 = 31 := by simp [daysInMonth]
      refine ⟨?_, ?_, ?_, ?_⟩ <;> dsimp only <;> omega

lemma toOrdinal_predDate (d : PyDate) (h : ValidDate d) :
    toOrdinal (predDate d) = toOrdinal d - 1 := by
  obtain ⟨h1, h2, h3, h4⟩ := h
  unfold predDate
  split
  · unfold toOrdinal
    dsimp only
    omega
  · split
    · unfold toOrdinal
      dsimp only
      have := daysBeforeMonth_succ d.year (d.month - 1) (by omega) (by omega)
      have hmm : d.month - 1 + 1 = d.month := by omega
      rw [hmm] at this
      omega
    · have hm1 : d.month = 1 := by omega
      have hd1 : d.day = 1 := by omega
      have hadj := leap_div_adjust (d.year - 1)
      unfold toOrdinal
      dsimp only
      have hb1 : daysBeforeMonth d.year d.month = 0 := by
        rw [hm1]; simp [daysBeforeMonth]
      have hb12 : daysBeforeMonth (d.year - 1) 12 = 334 + (if isLeap (d.year - 1) then 1 else 0) := by
        simp [daysBeforeMonth]
      by_cases hL : isLeap (d.year - 1)
      · rw [if_pos hL] at hadj hb12; omega
      · rw [if_neg hL] at hadj hb12; omega

lemma validDate_predDate (d : PyDate) (h : ValidDate d) : ValidDate (predDate d) := by
  obtain ⟨h1, h2, h3, h4⟩ := h
  unfold predDate
  split
  · refine ⟨?_, ?_, ?_, ?_⟩ <;> dsimp only <;> omega
  · split
    · have := one_le_daysInMonth d.year (d.month - 1)
      refine ⟨?_, ?_, ?_, ?_⟩ <;> dsimp only <;> omega
    · have : daysInMonth (d.year - 1) 12 = 31 := by simp [daysInMonth]
      refine ⟨?_, ?_, ?_, ?_⟩ <;> dsimp only <;> omega

lemma validDate_succIter (n : Nat) (d : PyDate) (h : ValidDate d) :
    ValidDate (succDate^[n] d) := by
  induction n generalizing d with
  | zero => simpa using h
  | succ n ih =>
      rw [Function.iterate_succ_apply]
      exact ih _ (validDate_succDate _ h)

lemma toOrdinal_succIter (n : Nat) (d : PyDate) (h : ValidDate d) :
    toOrdinal (succDate^[n] d) = toOrdinal d + n := by
  induction n generalizing d with
  | zero => simp
  | succ n ih =>
      rw [Function.iterate_succ_apply, ih _ (validDate_succDate _ h), toOrdinal_succDate _ h]
      omega

lemma validDate_predIter (n : Nat) (d : PyDate) (h : ValidDate d) :
    ValidDate (predDate^[n] d) := by
  induction n generalizing d with
  | zero => simpa using h
  | succ n ih =>
      rw [Function.iterate_succ_apply]
      exact ih _ (validDate_predDate _ h)

lemma toOrdinal_predIter (n : Nat) (d : PyDate) (h : ValidDate d) :
    toOrdinal (predDate^[n] d) = toOrdinal d - n := by
  induction n generalizing d with
  | zero => simp
  | succ n ih =>
      rw [Function.iterate_succ_apply, ih _ (validDate_predDate _ h), toOrdinal_predDate _ h]
      omega

lemma addDays_neg_one (d : PyDate) : addDays d (-1) = predDate d := by
  simp [addDays]

lemma validDate_addDays (d : PyDate) (n : Int) (h : ValidDate d) :
    ValidDate (addDays d n) := by
  unfold addDays
  split
  · exact validDate_succIter _ _ h
  · exact validDate_predIter _ _ h

lemma toOrdinal_addDays (d : PyDate) (n : Int) (h : ValidDate d) :
    toOrdinal (addDays d n) = toOrdinal d + n := by
  unfold addDays
  split
  · rw [toOrdinal_succIter _ _ h]
    omega
  · rw [toOrdinal_predIter _ _ h]
    omega

/-! ## MONTH resolution: first day through last day of the shifted month -/

/-- Zero-based month index (`12*year + month - 1`) shifted by `offset` months. -/
def monthIndex (ref : PyDate) (offset : Int) : Int :=
  12 * ref.year + ((ref.month : Int) - 1) + offset

/-- Year of the month obtained by adding `offset` months to `ref`'s month. -/
def monthY (ref : PyDate) (offset : Int) : Int := monthIndex ref offset / 12

/-- Month (1..12) obtained by adding `offset` months to `ref`'s month. -/
def monthM (ref : PyDate) (offset : Int) : Nat := (monthIndex ref offset % 12).toNat + 1

lemma monthM_ge_one (ref : PyDate) (offset : Int) : 1 ≤ monthM ref offset := by
  unfold monthM
  omega

lemma monthM_le_twelve (ref : PyDate) (offset : Int) : monthM ref offset ≤ 12 := by
  unfold monthM
  have h1 : monthIndex ref offset % 12 < 12 := Int.emod_lt_of_pos _ (by norm_num)
  have h0 : 0 ≤ monthIndex ref offset % 12 := Int.emod_nonneg _ (by norm_num)
  omega

lemma relAddMonths_day1 (ref : PyDate) (offset : Int) :
    relAddMonths ref (some 1) offset = ⟨monthY ref offset, monthM ref offset, 1⟩ := by
  simp only [relAddMonths, monthY, monthM, monthIndex, Option.getD]
  rw [min_eq_right (one_le_daysInMonth _ _)]

lemma relAddMonths_next (y : Int) (m : Nat) (h1 : 1 ≤ m) (h2 : m ≤ 12) :
    relAddMonths ⟨y, m, 1⟩ none 1 =
      if m < 12 then (⟨y, m + 1, 1⟩ : PyDate) else ⟨y + 1, 1, 1⟩ := by
  have hdiv : (12 * y + ((m : Int) - 1) + 1) / 12 = if m < 12 then y else y + 1 := by
    split <;> omega
  have hmod : ((12 * y + ((m : Int) - 1) + 1) % 12).toNat = if m < 12 then m else 0 := by
    split <;> omega
  simp only [relAddMonths, Option.getD]
  rw [hdiv, hmod]
  by_cases hm : m < 12
  · simp only [if_pos hm]
    rw [min_eq_right (one_le_daysInMonth _ _)]
  · simp only [if_neg hm]
    rw [min_eq_right (one_le_daysInMonth _ _)]

lemma resolve_MONTH_eq (offset : Int) (ref : PyDate) :
    GeoTimePeriod.resolve .MONTH offset ref =
      some (⟨monthY ref offset, monthM ref offset, 1⟩,
            ⟨monthY ref offset, monthM ref offset,
              daysInMonth (monthY ref offset) (monthM ref offset)⟩) := by
  have hm1 := monthM_ge_one ref offset
  have hm2 := monthM_le_twelve ref offset
  simp only [GeoTimePeriod.resolve]
  rw [relAddMonths_day1, relAddMonths_next _ _ hm1 hm2]
  by_cases hm : monthM ref offset < 12
  · rw [if_pos hm, addDays_neg_one]
    unfold predDate
    dsimp only
    rw [if_neg (by omega), if_pos (by omega)]
    simp
  · rw [if_neg hm]
    have hm12 : monthM ref offset = 12 := by omega
    rw [hm12, addDays_neg_one]
    unfold predDate
    dsimp only
    rw [if_neg (by omega), if_neg (by omega)]
    have : daysInMonth (monthY ref offset) 12 = 31 := by simp [daysInMonth]
    rw [this]
    simp

/-- C8: for every reference date and every integer offset, `resolve(MONTH, offset, ref)`
returns (first day of the month obtained by adding `offset` months to `ref`'s month, last
day of that same month); in particular a day in March 2024 with offset 0 gives
(2024-03-01, 2024-03-31), and 2024-04-15 with offset -1 gives (2024-03-01, 2024-03-31). -/
theorem month_resolve_first_and_last_day (offset : Int) (ref : PyDate) :
    GeoTimePeriod.resolve .MONTH offset ref =
      some (⟨monthY ref offset, monthM ref offset, 1⟩,
            ⟨monthY ref offset, monthM ref offset,
              daysInMonth (monthY ref offset) (monthM ref offset)⟩)
    ∧ GeoTimePeriod.resolve .MONTH 0 ⟨2024, 3, 14⟩ = some (⟨2024, 3, 1⟩, ⟨2024, 3, 31⟩)
    ∧ GeoTimePeriod.resolve .MONTH (-1) ⟨2024, 4, 15⟩ = some (⟨2024, 3, 1⟩, ⟨2024, 3, 31⟩) :=
  ⟨resolve_MONTH_eq offset ref, by decide, by decide⟩

/-- C9: for every time period, offset and valid reference date, a resolved range satisfies
start ≤ end (in calendar order, i.e. on ordinals), and the WEEK range runs from the Monday
of the offset week (weekday 0) through the following Sunday (weekday 6), a 7-day inclusive
span, for every weekday of the reference date. -/
theorem resolve_start_le_end_and_week_span (p : GeoTimePeriod) (o : Int) (ref : PyDate)
    (h : ValidDate ref) :
    (∀ fd td, GeoTimePeriod.resolve p o ref = some (fd, td) → toOrdinal fd ≤ toOrdinal td)
    ∧ (∀ fd td, GeoTimePeriod.resolve .WEEK o ref = some (fd, td) →
        pyWeekday fd = 0 ∧ pyWeekday td = 6 ∧ toOrdinal td = toOrdinal fd + 6) := by
  have hweek : ∀ fd td, GeoTimePeriod.resolve .WEEK o ref = some (fd, td) →
      pyWeekday fd = 0 ∧ pyWeekday td = 6 ∧ toOrdinal td = toOrdinal fd + 6 := by
    intro fd td hres
    simp only [GeoTimePeriod.resolve, Option.some.injEq, Prod.mk.injEq] at hres
    obtain ⟨rfl, rfl⟩ := hres
    have hvf : ValidDate (addDays ref (-(pyWeekday ref) + 7 * o)) := validDate_addDays _ _ h
    have e1 : toOrdinal (addDays ref (-(pyWeekday ref) + 7 * o))
        = toOrdinal ref + (-(pyWeekday ref) + 7 * o) := toOrdinal_addDays _ _ h
    have e2 : toOrdinal (addDays (addDays ref (-(pyWeekday ref) + 7 * o)) 6)
        = toOrdinal (addDays ref (-(pyWeekday ref) + 7 * o)) + 6 := toOrdinal_addDays _ _ hvf
    simp only [pyWeekday] at e1 e2 ⊢
    exact ⟨by omega, by omega, by omega⟩
  refine ⟨?_, hweek⟩
  intro fd td hres
  cases p with
  | DAY =>
      simp only [GeoTimePeriod.resolve, Option.some.injEq, Prod.mk.injEq] at hres
      obtain ⟨rfl, rfl⟩ := hres
      exact le_refl _
  | WEEK =>
      have := (hweek fd td hres).2.2
      omega
  | MONTH =>
      rw [resolve_MONTH_eq] at hres
      simp only [Option.some.injEq, Prod.mk.injEq] at hres
      obtain ⟨⟨rfl, rfl⟩ , rfl⟩ := hres
      have := one_le_daysInMonth (monthY ref o) (monthM ref o)
      unfold toOrdinal
      dsimp only
      omega
  | UNBILLED => simp [GeoTimePeriod.resolve] at hres
  | FOREVER => simp [GeoTimePeriod.resolve] at hres

/-- Concrete instantiation of `resolve_start_le_end_and_week_span` at WEEK, offset 0 and a
Wednesday: the week resolves to Monday 2024-01-01 through Sunday 2024-01-07. -/
theorem resolve_start_le_end_and_week_span_witness :
    ValidDate ⟨2024, 1, 3⟩
    ∧ GeoTimePeriod.resolve .WEEK 0 ⟨2024, 1, 3⟩ = some (⟨2024, 1, 1⟩, ⟨2024, 1, 7⟩)
    ∧ toOrdinal (⟨2024, 1, 1⟩ : PyDate) ≤ toOrdinal ⟨2024, 1, 7⟩
    ∧ pyWeekday ⟨2024, 1, 1⟩ = 0 ∧ pyWeekday ⟨2024, 1, 7⟩ = 6
    ∧ toOrdinal (⟨2024, 1, 7⟩ : PyDate) = toOrdinal ⟨2024, 1, 1⟩ + 6 :=
  ⟨by decide, by decide,
    (resolve_start_le_end_and_week_span .WEEK 0 ⟨2024, 1, 3⟩ (by decide)).1 _ _ (by decide),
    (resolve_start_le_end_and_week_span .WEEK 0 ⟨2024, 1, 3⟩ (by decide)).2 _ _ (by decide)⟩

/-! ## Domain model (`geocommon.py`) -/

/-- `GeoEnergyType` from `geocommon.py`. -/
inductive GeoEnergyType where
  | ELECTRICITY
  | GAS_ENERGY
deriving DecidableEq

/-- `GeoEnergyUsage` from `geocommon.py`: `_period`, `_type`, `_energy_amount`,
`_energy_cost`.  The two numeric fields hold Python floats or `None`
(`Option ℚ` here); both the constructor arguments and the stored fields are
whatever the caller supplies. -/
structure GeoEnergyUsage where
  period : GeoTimePeriod
  type : GeoEnergyType
  energy_amount : Option ℚ
  energy_cost : Option ℚ
deriving DecidableEq

/-- `GeoPeriodicEnergyUsage` from `geocommon.py`: `_type` and the `_usage` list. -/
structure GeoPeriodicEnergyUsage where
  type : GeoEnergyType
  usage : List GeoEnergyUsage
deriving DecidableEq

/-- `GeoPeriodicEnergyUsage.__add__` with a single `GeoEnergyUsage`: appends to
`_usage` (in Python this mutates `self` in place and returns it). -/
def GeoPeriodicEnergyUsage.addOne (p : GeoPeriodicEnergyUsage) (u : GeoEnergyUsage) :
    GeoPeriodicEnergyUsage :=
  { p with usage := p.usage ++ [u] }

/-- `GeoPeriodicEnergyUsage.__add__` with a list: extends `_usage`. -/
def GeoPeriodicEnergyUsage.addMany (p : GeoPeriodicEnergyUsage) (us : List GeoEnergyUsage) :
    GeoPeriodicEnergyUsage :=
  { p with usage := p.usage ++ us }

/-! ## Python `dict` accumulators as insertion-ordered association lists -/

/-- Python `dict[key]` / `key in dict` lookup. -/
def dictLookup {K V : Type} [DecidableEq K] (m : List (K × V)) (k : K) : Option V :=
  match m with
  | [] => none
  | (k', v) :: rest => if k' = k then some v else dictLookup rest k

/-- In-place update of the value stored at `k`; keys are unique in a Python
`dict`, so updating the first occurrence preserves the dict exactly. -/
def dictModify {K V : Type} [DecidableEq K] (m : List (K × V)) (k : K) (f : V → V) :
    List (K × V) :=
  match m with
  | [] => []
  | (k', v) :: rest => if k' = k then (k', f v) :: rest else (k', v) :: dictModify rest k f

/-- Python `dict.values()` (insertion order). -/
def dictValues {K V : Type} (m : List (K × V)) : List V := m.map (fun e => e.2)

/-! ## API payload fragments

Each JSON object is modelled as a record; keys the source reads
unconditionally (plain `d["k"]` indexing) are plain fields, keys the source
tests with `in` first are `Option` fields. -/

/-- One element of a historic response's `commodityTotalsList`. -/
structure CommodityTotal where
  commodityType : GeoEnergyType
  energyKWh : Option ℚ
  costPence : Option ℚ
deriving DecidableEq

/-- One element of a historic response's `totalsList`. -/
structure PeriodTotal where
  commodityTotalsList : Option (List CommodityTotal)
deriving DecidableEq

/-- Body of a `smets2-historic-*` response. -/
structure HistoricDataPayload where
  totalsList : Option (List PeriodTotal)
deriving DecidableEq

/-- One element of `totalConsumptionList`. -/
structure TotalConsumptionEntry where
  commodityType : GeoEnergyType
  totalConsumption : ℚ
deriving DecidableEq

/-- One element of `billToDateList`. -/
structure BillToDateEntry where
  commodityType : GeoEnergyType
  billToDate : ℚ
deriving DecidableEq

/-- One element of `currentCostsElec` / `currentCostsGas`. -/
structure CurrentCostEntry where
  duration : GeoTimePeriod
  energyAmount : ℚ
  costAmount : ℚ
deriving DecidableEq

/-- Body of a `smets2-periodic-data` response (all four sections optional). -/
structure PeriodicDataPayload where
  totalConsumptionList : Option (List TotalConsumptionEntry)
  billToDateList : Option (List BillToDateEntry)
  currentCostsElec : Option (List CurrentCostEntry)
  currentCostsGas : Option (List CurrentCostEntry)
deriving DecidableEq

/-- One element of a live response's `power` list (raw fragment, fields read
lazily by `GeoLivePowerUsage`'s properties). -/
structure PowerReading where
  type : Option String
  watts : Option Int
deriving DecidableEq

/-- Body of a `smets2-live-data` response. -/
structure LiveDataPayload where
  power : Option (List PowerReading)
deriving DecidableEq

/-- `GeoLivePowerUsage` from `geocommon.py`: wraps the raw payload fragment. -/
structure GeoLivePowerUsage where
  live_usage : PowerReading
deriving DecidableEq

/-- Systems list entry from `detail-systems` (both keys tested with `in`). -/
structure SystemDetail where
  systemId : Option String
  name : Option String
deriving DecidableEq

/-- Body of a `detail-systems` response. -/
structure SystemsPayload where
  systemDetails : Option (List SystemDetail)
deriving DecidableEq

/-! ## Payload parsers (`geotogether.py` module-level helpers) -/

/-- `_parse_historic_commodity_totals`: folds one sub-period's commodity totals
into the per-energy-type accumulator.  Absent `energyKWh` / `costPence` keys
default to `0`; an existing entry is updated with `+=` on both fields (the
`Option.map` models Python's in-place `+=`, which needs a numeric value;
entries in this accumulator are always created with numeric fields below, so
the `none` case never arises); a new entry stores the (possibly defaulted)
numbers directly. -/
def _parse_historic_commodity_totals (time_period : GeoTimePeriod) :
    List CommodityTotal → List (GeoEnergyType × GeoEnergyUsage) →
    List (GeoEnergyType × GeoEnergyUsage)
  | [], accumulator => accumulator
  | usage :: rest, accumulator =>
      let energy_type := usage.commodityType
      let amount := usage.energyKWh.getD 0
      let cost := usage.costPence.getD 0
      let acc' := match dictLookup accumulator energy_type with
        | some _ =>
            dictModify accumulator energy_type (fun eu =>
              { eu with energy_amount := eu.energy_amount.map (fun a => a + amount),
                        energy_cost := eu.energy_cost.map (fun c => c + cost) })
        | none =>
            accumulator ++ [(energy_type, ⟨time_period, energy_type, some amount, some cost⟩)]
      _parse_historic_commodity_totals time_period rest acc'

/-- `_parse_current_costs`: maps every entry to a `GeoEnergyUsage` with the
entry's own `duration` period, then adds the whole list to the accumulator's
`GeoPeriodicEnergyUsage` for the fixed `energy_type` (creating it if absent). -/
def _parse_current_costs (energy_type : GeoEnergyType)
    (current_costs : List CurrentCostEntry)
    (accumulator : List (GeoEnergyType × GeoPeriodicEnergyUsage)) :
    List (GeoEnergyType × GeoPeriodicEnergyUsage) :=
  let usage := current_costs.map (fun u =>
    (⟨u.duration, energy_type, some u.energyAmount, some u.costAmount⟩ : GeoEnergyUsage))
  match dictLookup accumulator energy_type with
  | some _ => dictModify accumulator energy_type (fun pu => pu.addMany usage)
  | none => accumulator ++ [(energy_type, ⟨energy_type, usage⟩)]

/-- `_parse_bill_to_date`: each entry becomes an UNBILLED `GeoEnergyUsage`
with `None` amount and the `billToDate` cost, appended to (or creating) the
per-type `GeoPeriodicEnergyUsage`. -/
def _parse_bill_to_date (bill_to_date : List BillToDateEntry)
    (accumulator : List (GeoEnergyType × GeoPeriodicEnergyUsage)) :
    List (GeoEnergyType × GeoPeriodicEnergyUsage) :=
  bill_to_date.foldl (fun acc unbilled =>
    let energy_type := unbilled.commodityType
    let usage : GeoEnergyUsage := ⟨.UNBILLED, energy_type, none, some unbilled.billToDate⟩
    match dictLookup acc energy_type with
    | some _ => dictModify acc energy_type (fun pu => pu.addOne usage)
    | none => acc ++ [(energy_type, ⟨energy_type, [usage]⟩)])
    accumulator

/-- `_parse_total_consumption`: each entry becomes a FOREVER `GeoEnergyUsage`
with the `totalConsumption` amount and `None` cost, appended to (or creating)
the per-type `GeoPeriodicEnergyUsage`. -/
def _parse_total_consumption (total_consumption : List TotalConsumptionEntry)
    (accumulator : List (GeoEnergyType × GeoPeriodicEnergyUsage)) :
    List (GeoEnergyType × GeoPeriodicEnergyUsage) :=
  total_consumption.foldl (fun acc consumption =>
    let energy_type := consumption.commodityType
    let usage : GeoEnergyUsage := ⟨.FOREVER, energy_type, some consumption.totalConsumption, none⟩
    match dictLookup acc energy_type with
    | some _ => dictModify acc energy_type (fun pu => pu.addOne usage)
    | none => acc ++ [(energy_type, ⟨energy_type, [usage]⟩)])
    accumulator

/-! ## Session state machine and query engine (`GeoTogetherClient`) -/

/-- Exceptions raised by the client.  `geoTogetherError` is the base
`GeoTogetherError` (the spec's `ApiError`); the other two are its
`GeoTogetherAuthenticationError` / `GeoTogetherSystemError` subclasses.
`pyAttributeError` stands for an uncaught Python `AttributeError`
(calling `.isoformat()` on `None`); it marks a branch the guards make
unreachable. -/
inductive GeoErr where
  | geoTogetherError (msg : String)
  | geoTogetherAuthenticationError (msg : String)
  | geoTogetherSystemError (msg : String)
  | pyAttributeError
deriving DecidableEq

/-- Outcome of one `aiohttp` request: either an `aiohttp.ClientError` was
raised, or a response with a status code and a (parsed JSON) body arrived. -/
inductive HttpOutcome (β : Type) where
  | clientError
  | response (status : Nat) (body : β)
deriving DecidableEq

/-- The mutable client state whose lifetime spans calls: whether the session
headers carry an `Authorization` entry, and `self._system_id`. -/
structure ClientState where
  hasAuthHeader : Bool
  system_id : Option String
deriving DecidableEq

/-- Python truthiness test (`not x`) for an optional string: `None` and the
empty string are falsy. -/
def pyFalsy : Option String → Bool
  | none => true
  | some s => s.isEmpty

/-- Python `f"...{x}..."` interpolation of an optional string. -/
def pyStr : Option String → String
  | none => "None"
  | some s => s

/-- `_build_url` from `geotogether.py`. -/
def _build_url (uri : String) : String := "https://api.geotogether.com/" ++ uri

/-- `GeoTogetherClient._check_prerequisits`: the raised exception, if any. -/
def _check_prerequisits (s : ClientState) : Option GeoErr :=
  if ¬ s.hasAuthHeader then
    some (.geoTogetherAuthenticationError "You must authenticate before you can use this API")
  else if pyFalsy s.system_id then
    some (.geoTogetherSystemError "You must resolve the system before you can use this API")
  else none

/-- Result of `resolve_system`: Python `False`, or the value of
`self._system_id` (which may itself be `None`). -/
inductive ResolveResult where
  | pyFalse
  | sysId (v : Option String)
deriving DecidableEq

/-- Python truthiness of the value `resolve_system` returns. -/
def ResolveResult.truthy : ResolveResult → Bool
  | .pyFalse => false
  | .sysId v => !(pyFalsy v)

/-- Python `(not name) or system["name"] == name`. -/
def nameMatches (name : Option String) (sysName : String) : Bool :=
  match name with
  | none => true
  | some n => if n.isEmpty then true else sysName == n

/-- The loop body of `resolve_system`: first entry carrying both a
`systemId` and a `name` key whose name matches (entries missing either key
are skipped). -/
def findSystemId (name : Option String) : List SystemDetail → Option String
  | [] => none
  | sys :: rest =>
      match sys.systemId, sys.name with
      | some sid, some snm =>
          if nameMatches name snm then some sid else findSystemId name rest
      | _, _ => findSystemId name rest

/-- `GeoTogetherClient.resolve_system`: on a `ClientError` returns `False`;
otherwise scans a 200 response's `systemDetails` for the first matching
well-formed entry, stores its id in `self._system_id` on a match, and
returns `self._system_id` (the previously stored value when nothing
matched, the response is not a 200, or the key is absent). -/
def resolve_system (s : ClientState) (name : Option String)
    (http : HttpOutcome SystemsPayload) : ClientState × ResolveResult :=
  match http with
  | .clientError => (s, .pyFalse)
  | .response status body =>
      if status = 200 then
        match body.systemDetails with
        | some systems =>
            match findSystemId name systems with
            | some sid => ({ s with system_id := some sid }, .sysId (some sid))
            | none => (s, .sysId s.system_id)
        | none => (s, .sysId s.system_id)
      else (s, .sysId s.system_id)

/-- `GeoTogetherClient.get_live_usage`.  The second component of the result
is the request the call issued (`none` when it failed before issuing one). -/
def get_live_usage (s : ClientState) (http : HttpOutcome LiveDataPayload) :
    ClientState × Option String × Except GeoErr (List GeoLivePowerUsage) :=
  match _check_prerequisits s with
  | some e => (s, none, .error e)
  | none =>
    let uri := "api/userapi/system/smets2-live-data/" ++ pyStr s.system_id
    match http with
    | .clientError =>
        (s, some (_build_url uri), .error (.geoTogetherError "Connectivity Error"))
    | .response status body =>
        if status = 200 then
          (s, some (_build_url uri),
            .ok (match body.power with
                 | some ps => if ps.isEmpty then [] else ps.map GeoLivePowerUsage.mk
                 | none => []))
        else if status = 401 then
          ({ s with hasAuthHeader := false }, some (_build_url uri),
            .error (.geoTogetherAuthenticationError "Authentication has expired"))
        else
          (s, some (_build_url uri),
            .error (.geoTogetherError
              ("The Geo Together API call failed with status " ++ toString status)))

/-- The 200-branch of `get_periodic_usage`: the four optional payload
sections folded, in source order, into the shared per-energy-type
accumulator `rtn` (initially empty). -/
def periodicAccumulate (body : PeriodicDataPayload) :
    List (GeoEnergyType × GeoPeriodicEnergyUsage) :=
  let rtn : List (GeoEnergyType × GeoPeriodicEnergyUsage) := []
  let rtn := match body.totalConsumptionList with
             | some l => _parse_total_consumption l rtn
             | none => rtn
  let rtn := match body.billToDateList with
             | some l => _parse_bill_to_date l rtn
             | none => rtn
  let rtn := match body.currentCostsElec with
             | some l => _parse_current_costs .ELECTRICITY l rtn
             | none => rtn
  match body.currentCostsGas with
  | some l => _parse_current_costs .GAS_ENERGY l rtn
  | none => rtn

/-- `GeoTogetherClient.get_periodic_usage`. -/
def get_periodic_usage (s : ClientState) (http : HttpOutcome PeriodicDataPayload) :
    ClientState × Option String × Except GeoErr (List GeoPeriodicEnergyUsage) :=
  match _check_prerequisits s with
  | some e => (s, none, .error e)
  | none =>
    let uri := "api/userapi/system/smets2-periodic-data/" ++ pyStr s.system_id
    match http with
    | .clientError =>
        (s, some (_build_url uri), .error (.geoTogetherError "Connectivity Error"))
    | .response status body =>
        if status = 200 then
          (s, some (_build_url uri), .ok (dictValues (periodicAccumulate body)))
        else if status = 401 then
          ({ s with hasAuthHeader := false }, some (_build_url uri),
            .error (.geoTogetherAuthenticationError "Authentication has expired"))
        else
          (s, some (_build_url uri),
            .error (.geoTogetherError
              ("The Geo Together API call failed with status " ++ toString status)))

/-- The request `get_historic_usage` issues: the endpoint variant
(`smets2-historic-{history_type}`) and the resolved `from`/`to` bounds
(carried in the URI as ISO dates; kept structurally here). -/
structure HistoricRequest where
  history_type : String
  from_date : PyDate
  to_date : PyDate
deriving DecidableEq

/-- The 200-branch of `get_historic_usage`: every `totalsList` element
carrying a `commodityTotalsList` is folded into the per-energy-type
accumulator `rtn` (initially empty). -/
def historicAccumulate (time_period : GeoTimePeriod) (body : HistoricDataPayload) :
    List (GeoEnergyType × GeoEnergyUsage) :=
  match body.totalsList with
  | none => []
  | some totals =>
      totals.foldl (fun acc period_total =>
        match period_total.commodityTotalsList with
        | some cts => _parse_historic_commodity_totals time_period cts acc
        | none => acc) []

/-- `GeoTogetherClient.get_historic_usage`.  `default_today` is the value the
module captured for `resolve`'s `start_date=date.today()` default when
`geocommon.py` was imported; `_call_today` is the current date when this call
happens — the Python code never reads it, which is exactly what claim C4 is
about.  Note the source checks only `response.status == 200` here: any other
status (401 included) silently yields the empty accumulator. -/
def get_historic_usage (default_today : PyDate) (_call_today : PyDate) (s : ClientState)
    (time_period : GeoTimePeriod) (offset : Int) (http : HttpOutcome HistoricDataPayload) :
    ClientState × Option HistoricRequest × Except GeoErr (List GeoEnergyUsage) :=
  match _check_prerequisits s with
  | some e => (s, none, .error e)
  | none =>
    if time_period = .UNBILLED ∨ time_period = .FOREVER then
      (s, none, .error (.geoTogetherError
        ("Cannot get historic usage for " ++ time_period.value ++ ",use get_periodic_usage instead")))
    else
      let offset := if offset > 0 then -offset else offset
      match GeoTimePeriod.resolve time_period offset default_today with
      | none => (s, none, .error .pyAttributeError)
      | some (from_date, to_date) =>
          let history_type := if time_period = .MONTH then "day" else time_period.lowerName
          let req : HistoricRequest := ⟨history_type, from_date, to_date⟩
          match http with
          | .clientError =>
              (s, some req, .error (.geoTogetherError "Connectivity Error"))
          | .response status body =>
              if status = 200 then
                (s, some req, .ok (dictValues (historicAccumulate time_period body)))
              else
                (s, some req, .ok [])

/-! ## Claim theorems: error handling of the query engine -/

/-- C2 (failing-input evaluation): `get_live_usage` does clear the token and
raise `GeoTogetherAuthenticationError("Authentication has expired")` on a 401,
and a subsequent call with the cleared token fails with an authentication
error without issuing a request — but `get_historic_usage`, receiving a 401
in an authenticated resolved session, issues the request and then returns an
empty usage list with the `Authorization` header still in place instead of
clearing the token and raising; the claimed contract fails for it. -/
theorem historic_401_keeps_token_and_returns_empty :
    get_live_usage ⟨true, some "sys"⟩ (.response 401 ⟨none⟩)
      = (⟨false, some "sys"⟩,
          some (_build_url "api/userapi/system/smets2-live-data/sys"),
          .error (.geoTogetherAuthenticationError "Authentication has expired"))
    ∧ get_live_usage ⟨false, some "sys"⟩ (.response 200 ⟨none⟩)
      = (⟨false, some "sys"⟩, none,
          .error (.geoTogetherAuthenticationError
            "You must authenticate before you can use this API"))
    ∧ get_historic_usage ⟨2025, 1, 15⟩ ⟨2025, 1, 16⟩ ⟨true, some "sys"⟩ .DAY 0
        (.response 401 ⟨none⟩)
      = (⟨true, some "sys"⟩, some ⟨"day", ⟨2025, 1, 15⟩, ⟨2025, 1, 15⟩⟩, .ok []) :=
  ⟨rfl, rfl, rfl⟩

/-- C3 (failing-input evaluation): `get_live_usage` does fail with the base
`GeoTogetherError` carrying the status on an unexpected status, and all three
operations fail with `GeoTogetherError("Connectivity Error")` on a transport
error — but `get_historic_usage`, receiving a 500 in an authenticated
resolved session, returns an empty usage list instead of raising an error
carrying the status; the claimed contract fails for it. -/
theorem historic_500_returns_empty_not_error :
    get_live_usage ⟨true, some "sys"⟩ (.response 500 ⟨none⟩)
      = (⟨true, some "sys"⟩,
          some (_build_url "api/userapi/system/smets2-live-data/sys"),
          .error (.geoTogetherError "The Geo Together API call failed with status 500"))
    ∧ get_live_usage ⟨true, some "sys"⟩ .clientError
      = (⟨true, some "sys"⟩,
          some (_build_url "api/userapi/system/smets2-live-data/sys"),
          .error (.geoTogetherError "Connectivity Error"))
    ∧ get_historic_usage ⟨2025, 1, 15⟩ ⟨2025, 1, 16⟩ ⟨true, some "sys"⟩ .DAY 0 .clientError
      = (⟨true, some "sys"⟩, some ⟨"day", ⟨2025, 1, 15⟩, ⟨2025, 1, 15⟩⟩,
          .error (.geoTogetherError "Connectivity Error"))
    ∧ get_historic_usage ⟨2025, 1, 15⟩ ⟨2025, 1, 16⟩ ⟨true, some "sys"⟩ .DAY 0
        (.response 500 ⟨none⟩)
      = (⟨true, some "sys"⟩, some ⟨"day", ⟨2025, 1, 15⟩, ⟨2025, 1, 15⟩⟩, .ok []) :=
  ⟨rfl, rfl, rfl, rfl⟩

/-- C5: in a session satisfying the prerequisites, `get_historic_usage` with
UNBILLED or FOREVER fails with the base `GeoTogetherError` (the spec's
`ApiError`) before any HTTP request is issued (request component `none`),
for every offset and every possible transport outcome. -/
theorem historic_rejects_unbilled_and_forever (default_today _call_today : PyDate)
    (s : ClientState) (o : Int) (http : HttpOutcome HistoricDataPayload)
    (p : GeoTimePeriod) (hpre : _check_prerequisits s = none)
    (hp : p = .UNBILLED ∨ p = .FOREVER) :
    get_historic_usage default_today _call_today s p o http
      = (s, none, .error (.geoTogetherError
          ("Cannot get historic usage for " ++ p.value
            ++ ",use get_periodic_usage instead"))) := by
  rcases hp with rfl | rfl <;>
    simp [get_historic_usage, hpre]

/-- Concrete instantiation of `historic_rejects_unbilled_and_forever`. -/
theorem historic_rejects_unbilled_and_forever_witness :
    _check_prerequisits ⟨true, some "sys"⟩ = none
    ∧ ((.UNBILLED : GeoTimePeriod) = .UNBILLED ∨ (.UNBILLED : GeoTimePeriod) = .FOREVER)
    ∧ get_historic_usage ⟨2025, 1, 15⟩ ⟨2025, 1, 16⟩ ⟨true, some "sys"⟩ .UNBILLED 3 .clientError
      = (⟨true, some "sys"⟩, none, .error (.geoTogetherError
          ("Cannot get historic usage for " ++ GeoTimePeriod.value .UNBILLED
            ++ ",use get_periodic_usage instead"))) :=
  ⟨by decide, Or.inl rfl,
    historic_rejects_unbilled_and_forever ⟨2025, 1, 15⟩ ⟨2025, 1, 16⟩ ⟨true, some "sys"⟩ 3
      .clientError .UNBILLED (by decide) (Or.inl rfl)⟩

/-- C10: every data-fetching operation, called with no `Authorization` header,
fails with the authentication error before issuing any request (request component
`none`); called with the header but a falsy system id, it fails with the system
error before issuing any request. -/
theorem data_calls_fail_fast_without_prerequisites (s : ClientState)
    (default_today _call_today : PyDate) (p : GeoTimePeriod) (o : Int)
    (httpL : HttpOutcome LiveDataPayload) (httpP : HttpOutcome PeriodicDataPayload)
    (httpH : HttpOutcome HistoricDataPayload) :
    (s.hasAuthHeader = false →
      get_live_usage s httpL = (s, none, .error (.geoTogetherAuthenticationError
          "You must authenticate before you can use this API"))
      ∧ get_periodic_usage s httpP = (s, none, .error (.geoTogetherAuthenticationError
          "You must authenticate before you can use this API"))
      ∧ get_historic_usage default_today _call_today s p o httpH
          = (s, none, .error (.geoTogetherAuthenticationError
              "You must authenticate before you can use this API")))
    ∧ (s.hasAuthHeader = true → pyFalsy s.system_id = true →
      get_live_usage s httpL = (s, none, .error (.geoTogetherSystemError
          "You must resolve the system before you can use this API"))
      ∧ get_periodic_usage s httpP = (s, none, .error (.geoTogetherSystemError
          "You must resolve the system before you can use this API"))
      ∧ get_historic_usage default_today _call_today s p o httpH
          = (s, none, .error (.geoTogetherSystemError
              "You must resolve the system before you can use this API"))) := by
  constructor
  · intro hA
    have hpre : _check_prerequisits s
        = some (.geoTogetherAuthenticationError
            "You must authenticate before you can use this API") := by
      simp [_check_prerequisits, hA]
    exact ⟨by simp [get_live_usage, hpre], by simp [get_periodic_usage, hpre],
      by simp [get_historic_usage, hpre]⟩
  · intro hA hS
    have hpre : _check_prerequisits s
        = some (.geoTogetherSystemError
            "You must resolve the system before you can use this API") := by
      simp [_check_prerequisits, hA, hS]
    exact ⟨by simp [get_live_usage, hpre], by simp [get_periodic_usage, hpre],
      by simp [get_historic_usage, hpre]⟩

/-- Concrete instantiation of `data_calls_fail_fast_without_prerequisites`: a
fresh unauthenticated client, and an authenticated client with no resolved
system. -/
theorem data_calls_fail_fast_witness :
    (⟨false, none⟩ : ClientState).hasAuthHeader = false
    ∧ get_live_usage ⟨false, none⟩ .clientError
      = (⟨false, none⟩, none, .error (.geoTogetherAuthenticationError
          "You must authenticate before you can use this API"))
    ∧ (⟨true, none⟩ : ClientState).hasAuthHeader = true
    ∧ pyFalsy (⟨true, none⟩ : ClientState).system_id = true
    ∧ get_historic_usage ⟨2025, 1, 15⟩ ⟨2025, 1, 16⟩ ⟨true, none⟩ .DAY 0 .clientError
      = (⟨true, none⟩, none, .error (.geoTogetherSystemError
          "You must resolve the system before you can use this API")) :=
  ⟨rfl,
    ((data_calls_fail_fast_without_prerequisites ⟨false, none⟩ ⟨2025, 1, 15⟩ ⟨2025, 1, 16⟩
        .DAY 0 .clientError .clientError .clientError).1 rfl).1,
    rfl, rfl,
    ((data_calls_fail_fast_without_prerequisites ⟨true, none⟩ ⟨2025, 1, 15⟩ ⟨2025, 1, 16⟩
        .DAY 0 .clientError .clientError .clientError).2 rfl rfl).2.2⟩

/-- C4: the `from`/`to` bounds `get_historic_usage` issues are a function of
the module-load-time default date only: two calls with the same period and
offset at any two call times yield identical results, and the issued bounds
are exactly `resolve(period, normalized offset, default_today)` — they never
track the date at call time. -/
theorem historic_range_independent_of_call_time (default_today : PyDate) (s : ClientState)
    (p : GeoTimePeriod) (o : Int) (http : HttpOutcome HistoricDataPayload)
    (call1 call2 : PyDate) (hpre : _check_prerequisits s = none)
    (hp : p = .DAY ∨ p = .WEEK ∨ p = .MONTH) :
    get_historic_usage default_today call1 s p o http
      = get_historic_usage default_today call2 s p o http
    ∧ ∃ fd td,
        GeoTimePeriod.resolve p (if o > 0 then -o else o) default_today = some (fd, td)
        ∧ (get_historic_usage default_today call1 s p o http).2.1
            = some ⟨(if p = .MONTH then "day" else p.lowerName), fd, td⟩ := by
  refine ⟨rfl, ?_⟩
  rcases hp with rfl | rfl | rfl <;>
    (cases http with
     | clientError =>
         exact ⟨_, _, rfl, by simp [get_historic_usage, GeoTimePeriod.resolve, hpre]⟩
     | response status body =>
         refine ⟨_, _, rfl, ?_⟩
         by_cases h2 : status = 200 <;>
           simp [get_historic_usage, GeoTimePeriod.resolve, hpre, h2])

/-- Concrete instantiation of `historic_range_independent_of_call_time`:
two calls on different days resolve the same bounds. -/
theorem historic_range_independent_witness :
    _check_prerequisits ⟨true, some "sys"⟩ = none
    ∧ ((.DAY : GeoTimePeriod) = .DAY ∨ (.DAY : GeoTimePeriod) = .WEEK
        ∨ (.DAY : GeoTimePeriod) = .MONTH)
    ∧ get_historic_usage ⟨2025, 3, 10⟩ ⟨2025, 3, 11⟩ ⟨true, some "sys"⟩ .DAY 0 .clientError
      = get_historic_usage ⟨2025, 3, 10⟩ ⟨2025, 7, 1⟩ ⟨true, some "sys"⟩ .DAY 0 .clientError :=
  ⟨by decide, Or.inl rfl,
    (historic_range_independent_of_call_time ⟨2025, 3, 10⟩ ⟨true, some "sys"⟩ .DAY 0
      .clientError ⟨2025, 3, 11⟩ ⟨2025, 7, 1⟩ (by decide) (Or.inl rfl)).1⟩

/-! ## Claim theorems: resolve_system -/

lemma findSystemId_of_no_match (name : Option String) (l : List SystemDetail)
    (h : ∀ e ∈ l, ∀ sid' snm', e.systemId = some sid' → e.name = some snm' →
        nameMatches name snm' = false) :
    findSystemId name l = none := by
  induction l with
  | nil => rfl
  | cons e rest ih =>
      obtain ⟨esid, enm⟩ := e
      have hrest := fun e he => h e (List.mem_cons_of_mem _ he)
      cases esid with
      | none => simpa [findSystemId] using ih hrest
      | some x =>
          cases enm with
          | none => simpa [findSystemId] using ih hrest
          | some y =>
              have hy : nameMatches name y = false :=
                h ⟨some x, some y⟩ (List.mem_cons_self _ _) x y rfl rfl
              simpa [findSystemId, hy] using ih hrest

lemma findSystemId_first_match (name : Option String) (sys : SystemDetail)
    (pre post : List SystemDetail) (sid snm : String)
    (hsid : sys.systemId = some sid) (hnm : sys.name = some snm)
    (hmatch : nameMatches name snm = true)
    (hpre : ∀ e ∈ pre, ∀ sid' snm', e.systemId = some sid' → e.name = some snm' →
        nameMatches name snm' = false) :
    findSystemId name (pre ++ sys :: post) = some sid := by
  induction pre with
  | nil =>
      obtain ⟨esid, enm⟩ := sys
      cases hsid
      cases hnm
      simp [findSystemId, hmatch]
  | cons e pre ih =>
      obtain ⟨esid, enm⟩ := e
      have hpre' := fun e he => hpre e (List.mem_cons_of_mem _ he)
      cases esid with
      | none => simpa [findSystemId] using ih hpre'
      | some x =>
          cases enm with
          | none => simpa [findSystemId] using ih hpre'
          | some y =>
              have hy : nameMatches name y = false :=
                hpre ⟨some x, some y⟩ (List.mem_cons_self _ _) x y rfl rfl
              simpa [findSystemId, hy] using ih hpre'

/-- C6 counterexample: in a client state whose previously resolved system id is
`"A"`, resolving the name `"Z"` against a 200 payload whose only system is
named `"Home"` matches nothing — yet the call returns the stale id `"A"`,
which is truthy, not the claimed falsy value. -/
theorem resolve_system_stale_id_counterexample :
    resolve_system ⟨true, some "A"⟩ (some "Z")
        (.response 200 ⟨some [⟨some "B", some "Home"⟩]⟩)
      = (⟨true, some "A"⟩, .sysId (some "A"))
    ∧ ResolveResult.truthy (.sysId (some "A")) = true
    ∧ nameMatches (some "Z") "Home" = false := by
  refine ⟨?_, by decide, by decide⟩
  decide

/-- C6 amended: `resolve_system` returns the id of the first well-formed
system entry whose name matches (any well-formed entry when the name is
absent or empty), storing it in the client state; it returns Python `False`
on a transport error; and when no entry matches it returns the previously
held system id — which is falsy only if no system had been resolved
before. -/
theorem resolve_system_first_match_or_stale (s : ClientState) (name : Option String)
    (sys : SystemDetail) (pre post : List SystemDetail) (sid snm : String)
    (hsid : sys.systemId = some sid) (hnm : sys.name = some snm)
    (hmatch : nameMatches name snm = true)
    (hpre : ∀ e ∈ pre, ∀ sid' snm', e.systemId = some sid' → e.name = some snm' →
        nameMatches name snm' = false) :
    resolve_system s name (.response 200 ⟨some (pre ++ sys :: post)⟩)
      = ({ s with system_id := some sid }, .sysId (some sid))
    ∧ resolve_system s name .clientError = (s, .pyFalse)
    ∧ (∀ l : List SystemDetail,
        (∀ e ∈ l, ∀ sid' snm', e.systemId = some sid' → e.name = some snm' →
          nameMatches name snm' = false) →
        resolve_system s name (.response 200 ⟨some l⟩) = (s, .sysId s.system_id)) := by
  refine ⟨?_, rfl, ?_⟩
  · simp [resolve_system, findSystemId_first_match name sys pre post sid snm hsid hnm hmatch hpre]
  · intro l hl
    simp [resolve_system, findSystemId_of_no_match name l hl]

/-- Concrete instantiation of `resolve_system_first_match_or_stale` on the
spec's example payload (`Home ↦ A`, `Away ↦ B`): resolving `"Home"` yields
`"A"`. -/
theorem resolve_system_first_match_witness :
    (⟨some "A", some "Home"⟩ : SystemDetail).systemId = some "A"
    ∧ (⟨some "A", some "Home"⟩ : SystemDetail).name = some "Home"
    ∧ nameMatches (some "Home") "Home" = true
    ∧ resolve_system ⟨true, none⟩ (some "Home")
        (.response 200 ⟨some ([] ++ ⟨some "A", some "Home"⟩ :: [⟨some "B", some "Away"⟩])⟩)
      = (⟨true, some "A"⟩, .sysId (some "A")) :=
  ⟨rfl, rfl, by decide,
    (resolve_system_first_match_or_stale ⟨true, none⟩ (some "Home") ⟨some "A", some "Home"⟩
      [] [⟨some "B", some "Away"⟩] "A" "Home" rfl rfl (by decide)
      (fun e he => absurd he (List.not_mem_nil _))).1⟩

/-! ## Claim theorems: periodic usage merging -/

/-- C7: pushing a `totalConsumptionList` entry and a `billToDateList` entry
for the same energy type through `get_periodic_usage`'s accumulator yields
exactly one `GeoPeriodicEnergyUsage` for that type holding two
distinct-period entries — FOREVER carrying the amount with absent cost, then
UNBILLED carrying the cost with absent amount — neither overwriting the
other. -/
theorem periodic_merges_forever_and_unbilled (t : GeoEnergyType) (a c : ℚ) :
    periodicAccumulate ⟨some [⟨t, a⟩], some [⟨t, c⟩], none, none⟩
      = [(t, ⟨t, [⟨.FOREVER, t, some a, none⟩, ⟨.UNBILLED, t, none, some c⟩]⟩)] := by
  cases t <;> rfl

/-! ## Claim theorems: historic usage aggregation -/

/-- Sum of `energyKWh` (absent keys counting 0) over the entries of one
energy type. -/
def sumKWh (t : GeoEnergyType) : List CommodityTotal → ℚ
  | [] => 0
  | e :: rest => (if e.commodityType = t then e.energyKWh.getD 0 else 0) + sumKWh t rest

/-- Sum of `costPence` (absent keys counting 0) over the entries of one
energy type. -/
def sumCost (t : GeoEnergyType) : List CommodityTotal → ℚ
  | [] => 0
  | e :: rest => (if e.commodityType = t then e.costPence.getD 0 else 0) + sumCost t rest

/-- Whether any entry of the given energy type occurs. -/
def hasType (t : GeoEnergyType) : List CommodityTotal → Bool
  | [] => false
  | e :: rest => decide (e.commodityType = t) || hasType t rest

/-- All commodity totals of a historic response, in processing order: the
`commodityTotalsList` of every `totalsList` element that carries one,
concatenated. -/
def contributingTotals (body : HistoricDataPayload) : List CommodityTotal :=
  ((body.totalsList.getD []).filterMap (fun pt => pt.commodityTotalsList)).flatten

lemma dictLookup_modify_self {K V : Type} [DecidableEq K] (m : List (K × V)) (k : K)
    (f : V → V) : dictLookup (dictModify m k f) k = (dictLookup m k).map f := by
  induction m with
  | nil => rfl
  | cons e rest ih =>
      obtain ⟨k', v⟩ := e
      by_cases h : k' = k <;> simp [dictLookup, dictModify, h, ih]

lemma dictLookup_modify_ne {K V : Type} [DecidableEq K] (m : List (K × V)) (k1 k2 : K)
    (f : V → V) (h : k1 ≠ k2) : dictLookup (dictModify m k1 f) k2 = dictLookup m k2 := by
  induction m with
  | nil => rfl
  | cons e rest ih =>
      obtain ⟨k', v⟩ := e
      by_cases h1 : k' = k1
      · subst h1
        simp [dictLookup, dictModify, h]
      · by_cases h2 : k' = k2 <;> simp [dictLookup, dictModify, h1, h2, ih, Ne.symm h]

lemma dictLookup_append_self {K V : Type} [DecidableEq K] (m : List (K × V)) (k : K)
    (v : V) (h : dictLookup m k = none) : dictLookup (m ++ [(k, v)]) k = some v := by
  induction m with
  | nil => simp [dictLookup]
  | cons e rest ih =>
      obtain ⟨k', v'⟩ := e
      by_cases h1 : k' = k
      · simp [dictLookup, h1] at h
      · simp [dictLookup, h1] at h ⊢
        exact ih h

lemma dictLookup_append_ne {K V : Type} [DecidableEq K] (m : List (K × V)) (k1 k2 : K)
    (v : V) (h : k1 ≠ k2) : dictLookup (m ++ [(k1, v)]) k2 = dictLookup m k2 := by
  induction m with
  | nil => simp [dictLookup, h]
  | cons e rest ih =>
      obtain ⟨k', v'⟩ := e
      by_cases h2 : k' = k2 <;> simp [dictLookup, h2, ih]

/-- What `_parse_historic_commodity_totals` leaves at key `t`: an existing
entry has the type-`t` sums (absent fields defaulted to 0) added onto both
numeric fields; otherwise a fresh entry holding exactly those sums is
created as soon as any type-`t` entry occurs. -/
lemma parse_historic_lookup (tp : GeoTimePeriod) (t : GeoEnergyType)
    (es : List CommodityTotal) (acc : List (GeoEnergyType × GeoEnergyUsage)) :
    dictLookup (_parse_historic_commodity_totals tp es acc) t
      = match dictLookup acc t with
        | some u => some { u with
            energy_amount := u.energy_amount.map (fun a => a + sumKWh t es),
            energy_cost := u.energy_cost.map (fun c => c + sumCost t es) }
        | none =>
            if hasType t es then some ⟨tp, t, some (sumKWh t es), some (sumCost t es)⟩
            else none := by
  induction es generalizing acc with
  | nil =>
      cases hl : dictLookup acc t with
      | none => simp [_parse_historic_commodity_totals, hasType, hl]
      | some u =>
          obtain ⟨up, ut, ua, uc⟩ := u
          cases ua <;> cases uc <;>
            simp [_parse_historic_commodity_totals, sumKWh, sumCost, hl]
  | cons e rest ih =>
      obtain ⟨ety, ekwh, ecost⟩ := e
      by_cases het : ety = t
      · subst het
        cases hl : dictLookup acc ety with
        | some u =>
            simp only [_parse_historic_commodity_totals, hl]
            rw [ih, dictLookup_modify_self, hl]
            obtain ⟨up, ut, ua, uc⟩ := u
            cases ua <;> cases uc <;>
              simp [sumKWh, sumCost, add_assoc]
        | none =>
            simp only [_parse_historic_commodity_totals, hl]
            rw [ih, dictLookup_append_self _ _ _ hl]
            simp [sumKWh, sumCost, hasType]
      · cases hl : dictLookup acc ety with
        | some u =>
            simp only [_parse_historic_commodity_totals, hl]
            rw [ih, dictLookup_modify_ne _ _ _ _ het]
            simp [sumKWh, sumCost, hasType, het]
        | none =>
            simp only [_parse_historic_commodity_totals, hl]
            rw [ih, dictLookup_append_ne _ _ _ _ het]
            simp [sumKWh, sumCost, hasType, het]

lemma parse_historic_append (tp : GeoTimePeriod) (es1 es2 : List CommodityTotal)
    (acc : List (GeoEnergyType × GeoEnergyUsage)) :
    _parse_historic_commodity_totals tp (es1 ++ es2) acc
      = _parse_historic_commodity_totals tp es2 (_parse_historic_commodity_totals tp es1 acc) := by
  induction es1 generalizing acc with
  | nil => rfl
  | cons e rest ih =>
      simp only [List.cons_append, _parse_historic_commodity_totals]
      exact ih _

lemma historicAccumulate_eq_parse (tp : GeoTimePeriod) (body : HistoricDataPayload) :
    historicAccumulate tp body
      = _parse_historic_commodity_totals tp (contributingTotals body) [] := by
  obtain ⟨tl⟩ := body
  cases tl with
  | none => rfl
  | some totals =>
      suffices h : ∀ (acc : List (GeoEnergyType × GeoEnergyUsage)),
          totals.foldl (fun acc period_total =>
            match period_total.commodityTotalsList with
            | some cts => _parse_historic_commodity_totals tp cts acc
            | none => acc) acc
          = _parse_historic_commodity_totals tp
              ((totals.filterMap (fun pt => pt.commodityTotalsList)).flatten) acc by
        simpa [historicAccumulate, contributingTotals] using h []
      induction totals with
      | nil => intro acc; rfl
      | cons pt rest ih =>
          intro acc
          obtain ⟨ctl⟩ := pt
          cases ctl with
          | none => simpa [List.filterMap_cons] using ih acc
          | some cts =>
              simp [List.filterMap_cons, parse_historic_append, ih]

/-- C1 amended: `get_historic_usage`'s aggregation merges all commodity totals
across all sub-periods into one `GeoEnergyUsage` per energy type by summing
amounts and costs with absent fields defaulted to 0 *before* summing; the
per-type aggregate exists exactly when some entry of that type occurs, and
both of its fields are then always present — a field no contributing entry
supplied is 0, never absent. -/
theorem historic_aggregate_sums_with_zero_defaults (tp : GeoTimePeriod)
    (body : HistoricDataPayload) (t : GeoEnergyType) :
    dictLookup (historicAccumulate tp body) t
      = if hasType t (contributingTotals body) then
          some ⟨tp, t, some (sumKWh t (contributingTotals body)),
                some (sumCost t (contributingTotals body))⟩
        else none := by
  rw [historicAccumulate_eq_parse, parse_historic_lookup]
  rfl

/-- C1 counterexample: two sub-periods reporting ELECTRICITY with `energyKWh`
3 and 2 and no cost field in either yield an ELECTRICITY aggregate with
amount 5 and cost 0 — the cost is present (defaulted to 0), not absent as
the claim states. -/
theorem historic_cost_zero_not_absent_counterexample :
    get_historic_usage ⟨2025, 1, 15⟩ ⟨2025, 1, 16⟩ ⟨true, some "sys"⟩ .DAY 0
        (.response 200 ⟨some [⟨some [⟨.ELECTRICITY, some 3, none⟩]⟩,
                              ⟨some [⟨.ELECTRICITY, some 2, none⟩]⟩]⟩)
      = (⟨true, some "sys"⟩, some ⟨"day", ⟨2025, 1, 15⟩, ⟨2025, 1, 15⟩⟩,
          .ok [⟨.DAY, .ELECTRICITY, some 5, some 0⟩])
    ∧ some (0 : ℚ) ≠ (none : Option ℚ) := by
  constructor
  · norm_num [get_historic_usage, GeoTimePeriod.resolve, _check_prerequisits, pyFalsy,
      historicAccumulate, _parse_historic_commodity_totals, dictLookup, dictModify,
      dictValues]
    rfl
  · simp
